import Mathlib

/-!
Shallow embedding of the CRUD core of the SimpleMicroservice repository
(src/SimpleMicroservices/main.py and src/SimpleMicroservices/models/my_models.py).

Python dicts are modelled as association lists that preserve insertion order:
assigning to a fresh key appends, assigning to a present key replaces in place,
exactly like a CPython dict. HTTP handlers are modelled as pure functions from
the relevant store map (and the request parameters) to a result paired with the
new store map; raising HTTPException(code, detail) is modelled as the
`HResult.error code detail` outcome, and the FastAPI success status code of the
route decorator (201 for POST, 200 otherwise) is carried on `HResult.ok`.
-/

namespace SimpleMicroservice

/-- Outcome of one HTTP request handler: a success status with a body, or an
HTTPException with its status code and detail string. -/
inductive HResult (α : Type) where
  | ok (status : Nat) (body : α)
  | error (status : Nat) (detail : String)
deriving Repr, DecidableEq

/-- A pydantic validation failure (field location and message). -/
structure ValidationError where
  loc : String
  msg : String
deriving Repr, DecidableEq

/-! ## Association-list model of a Python dict -/

/-- `m[k]` lookup for the dict model: first (and only) binding of `k`. -/
def lookupKey [DecidableEq κ] : List (κ × α) → κ → Option α
  | [], _ => none
  | (k, v) :: rest, key => if k = key then some v else lookupKey rest key

/-- Python `k in m`. -/
def containsKey [DecidableEq κ] (m : List (κ × α)) (k : κ) : Bool :=
  (lookupKey m k).isSome

/-- Python `m[k] = v`: replace in place when the key is present, append when
it is fresh (CPython dicts keep insertion order this way). -/
def dictSet [DecidableEq κ] : List (κ × α) → κ → α → List (κ × α)
  | [], k, v => [(k, v)]
  | (k', v') :: rest, k, v =>
      if k' = k then (k, v) :: rest else (k', v') :: dictSet rest k v

/-- Python `list(m.values())`: the values in insertion order. -/
def dictValues (m : List (κ × α)) : List α := m.map Prod.snd

/-- The recurring handler pattern `if q is not None: results = [x for x in
results if pred(q, x)]`. -/
def stepFilter (o : Option β) (f : β → α → Bool) (l : List α) : List α :=
  match o with
  | none => l
  | some v => l.filter (f v)

/-- The predicate an optional query parameter imposes: no constraint when the
parameter is absent. -/
def optPred (o : Option β) (f : β → α → Bool) (a : α) : Bool :=
  match o with
  | none => true
  | some v => f v a

/-! ## models/my_models.py -/

/-- Course model fields (models/my_models.py, class Course). -/
structure Course where
  code : String
  title : String
  instructor : String
  credits : Int
  dept_id : String
deriving Repr, DecidableEq

/-- Pydantic construction/validation of a Course payload: `credits` carries
`ge=0, le=6`; all other fields are unconstrained strings. -/
def Course.parse (code title instructor : String) (credits : Int)
    (dept_id : String) : Except ValidationError Course :=
  if credits < 0 then
    .error ⟨"credits", "Input should be greater than or equal to 0"⟩
  else if 6 < credits then
    .error ⟨"credits", "Input should be less than or equal to 6"⟩
  else
    .ok ⟨code, title, instructor, credits, dept_id⟩

/-- Enrollment model fields (models/my_models.py, class Enrollment). -/
structure Enrollment where
  uni : String
  course_code : String
  year : Int
  term : String
  status : String
deriving Repr, DecidableEq

/-- Pydantic construction/validation of an Enrollment payload: `uni` carries
`min_length=2`; the remaining fields are unconstrained. -/
def Enrollment.parse (uni course_code : String) (year : Int)
    (term status : String) : Except ValidationError Enrollment :=
  if uni.length < 2 then
    .error ⟨"uni", "String should have at least 2 characters"⟩
  else
    .ok ⟨uni, course_code, year, term, status⟩

/-! ## main.py: composite key and Course / Enrollment endpoints -/

/-- main.py `_enroll_key`: the f-string `"{uni}|{course_code}|{year}|{term}"`. -/
def _enroll_key (uni course_code : String) (year : Int) (term : String) : String :=
  uni ++ "|" ++ course_code ++ "|" ++ toString year ++ "|" ++ term

abbrev CoursesMap := List (String × Course)
abbrev EnrollmentsMap := List (String × Enrollment)

/-- main.py `create_course` (POST /courses, status_code=201). -/
def create_course (courses : CoursesMap) (course : Course) :
    HResult Course × CoursesMap :=
  if containsKey courses course.code then
    (.error 400 "Course with this code already exists", courses)
  else
    (.ok 201 course, dictSet courses course.code course)

/-- main.py `get_course` (GET /courses/{course_code}). -/
def get_course (courses : CoursesMap) (course_code : String) :
    HResult Course × CoursesMap :=
  match lookupKey courses course_code with
  | none => (.error 404 "Course not found", courses)
  | some c => (.ok 200 c, courses)

/-- main.py `list_courses` (GET /courses with optional filters). -/
def list_courses (courses : CoursesMap) (code dept_id instructor : Option String)
    (min_credits max_credits : Option Int) : HResult (List Course) × CoursesMap :=
  let results := dictValues courses
  let results := stepFilter code (fun v c => c.code == v) results
  let results := stepFilter dept_id (fun v c => c.dept_id == v) results
  let results := stepFilter instructor (fun v c => c.instructor == v) results
  let results := stepFilter min_credits (fun v c => decide (v ≤ c.credits)) results
  let results := stepFilter max_credits (fun v c => decide (c.credits ≤ v)) results
  (.ok 200 results, courses)

/-- main.py `create_enrollment` (POST /enrollments, status_code=201). -/
def create_enrollment (enrollments : EnrollmentsMap) (enrollment : Enrollment) :
    HResult Enrollment × EnrollmentsMap :=
  let key := _enroll_key enrollment.uni enrollment.course_code enrollment.year
    enrollment.term
  if containsKey enrollments key then
    (.error 400 "Enrollment already exists for this (uni, course, year, term)",
      enrollments)
  else
    (.ok 201 enrollment, dictSet enrollments key enrollment)

/-- main.py `get_enrollment` (GET /enrollments/{uni}/{course_code}/{year}/{term}). -/
def get_enrollment (enrollments : EnrollmentsMap) (uni course_code : String)
    (year : Int) (term : String) : HResult Enrollment × EnrollmentsMap :=
  let key := _enroll_key uni course_code year term
  match lookupKey enrollments key with
  | none => (.error 404 "Enrollment not found", enrollments)
  | some e => (.ok 200 e, enrollments)

/-- main.py `list_enrollments` (GET /enrollments with optional filters). -/
def list_enrollments (enrollments : EnrollmentsMap)
    (uni course_code : Option String) (year : Option Int)
    (term status : Option String) : HResult (List Enrollment) × EnrollmentsMap :=
  let results := dictValues enrollments
  let results := stepFilter uni (fun v e => e.uni == v) results
  let results := stepFilter course_code (fun v e => e.course_code == v) results
  let results := stepFilter year (fun v e => e.year == v) results
  let results := stepFilter term (fun v e => e.term == v) results
  let results := stepFilter status (fun v e => e.status == v) results
  (.ok 200 results, enrollments)

/-- main.py `update_enrollment_status` (PATCH on the enrollment path): looks up
the composite key, rewrites `status` in the dumped fields, and re-runs the
pydantic constructor `Enrollment(**current)` before storing. -/
def update_enrollment_status (enrollments : EnrollmentsMap)
    (uni course_code : String) (year : Int) (term status : String) :
    HResult Enrollment × EnrollmentsMap :=
  let key := _enroll_key uni course_code year term
  match lookupKey enrollments key with
  | none => (.error 404 "Enrollment not found", enrollments)
  | some current =>
      match Enrollment.parse current.uni current.course_code current.year
        current.term status with
      | .error err => (.error 500 err.msg, enrollments)
      | .ok updated => (.ok 200 updated, dictSet enrollments key updated)

/-! ## Person / Address models

The files models/person.py and models/address.py are not part of the sources
at hand; only main.py's handlers over them are. The model classes below are
therefore modelled from the specification (sections 3 and 4.1), and UUIDs are
modelled as natural numbers. -/

/-- Modelled from the spec: the embedded "Address-like" value carried in a
Person's ordered address list, with attributes street, city, state,
postal_code, country (models/person.py is missing from the sources). -/
structure AddressBase where
  street : String
  city : String
  state : String
  postal_code : String
  country : String
deriving Repr, DecidableEq

/-- Modelled from the spec: AddressCreate (models/address.py is missing from
the sources). main.py reads `address.id` on POST, so the Create payload
carries the id, generated by the model's default factory. -/
structure AddressCreate where
  id : Nat
  street : String
  city : String
  state : String
  postal_code : String
  country : String
deriving Repr, DecidableEq

/-- Modelled from the spec: AddressRead — the Create fields plus the resolved
identity (models/address.py is missing from the sources). -/
structure AddressRead where
  id : Nat
  street : String
  city : String
  state : String
  postal_code : String
  country : String
deriving Repr, DecidableEq

/-- Modelled from the spec: AddressUpdate — every non-identity field optional,
with `none` meaning "not supplied" so that model_dump(exclude_unset=True)
contains exactly the `some` fields; identity is not part of the update shape
("A PATCH/partial-update never changes the identity field(s) of its target";
models/address.py is missing from the sources). -/
structure AddressUpdate where
  street : Option String
  city : Option String
  state : Option String
  postal_code : Option String
  country : Option String
deriving Repr, DecidableEq

/-- Modelled from the spec: PersonCreate — uni, names, email, phone,
birth_date (kept as its ISO-8601 YYYY-MM-DD rendering) and the embedded
address list (models/person.py is missing from the sources). -/
structure PersonCreate where
  uni : String
  first_name : String
  last_name : String
  email : String
  phone : String
  birth_date : String
  addresses : List AddressBase
deriving Repr, DecidableEq

/-- Modelled from the spec: PersonRead — the Create fields plus the generated
id (models/person.py is missing from the sources). -/
structure PersonRead where
  id : Nat
  uni : String
  first_name : String
  last_name : String
  email : String
  phone : String
  birth_date : String
  addresses : List AddressBase
deriving Repr, DecidableEq

/-- Modelled from the spec: PersonUpdate — every non-identity field optional
with explicit presence, identity excluded (models/person.py is missing from
the sources). -/
structure PersonUpdate where
  uni : Option String
  first_name : Option String
  last_name : Option String
  email : Option String
  phone : Option String
  birth_date : Option String
  addresses : Option (List AddressBase)
deriving Repr, DecidableEq

abbrev AddressesMap := List (Nat × AddressRead)
abbrev PersonsMap := List (Nat × PersonRead)

/-! ## main.py: Address / Person endpoints -/

/-- main.py `create_address` (POST /addresses, status_code=201). -/
def create_address (addresses : AddressesMap) (address : AddressCreate) :
    HResult AddressRead × AddressesMap :=
  if containsKey addresses address.id then
    (.error 400 "Address with this ID already exists", addresses)
  else
    let stored : AddressRead :=
      ⟨address.id, address.street, address.city, address.state,
        address.postal_code, address.country⟩
    (.ok 201 stored, dictSet addresses address.id stored)

/-- main.py `update_address` (PATCH /addresses/{address_id}): dump the stored
record, overwrite it with the explicitly-set payload fields, re-build the
AddressRead. -/
def update_address (addresses : AddressesMap) (address_id : Nat)
    (update : AddressUpdate) : HResult AddressRead × AddressesMap :=
  match lookupKey addresses address_id with
  | none => (.error 404 "Address not found", addresses)
  | some stored =>
      let merged : AddressRead :=
        ⟨stored.id, update.street.getD stored.street, update.city.getD stored.city,
          update.state.getD stored.state,
          update.postal_code.getD stored.postal_code,
          update.country.getD stored.country⟩
      (.ok 200 merged, dictSet addresses address_id merged)

/-- main.py `create_person` (POST /persons, status_code=201): builds a
PersonRead whose id comes from the model's uuid4 default factory — modelled
here as the extra argument `newId` — and stores it unconditionally; the
handler has no duplicate-id check. -/
def create_person (persons : PersonsMap) (person : PersonCreate) (newId : Nat) :
    HResult PersonRead × PersonsMap :=
  let person_read : PersonRead :=
    ⟨newId, person.uni, person.first_name, person.last_name, person.email,
      person.phone, person.birth_date, person.addresses⟩
  (.ok 201 person_read, dictSet persons newId person_read)

/-- main.py `list_persons` (GET /persons with optional filters, including the
nested any-address city and country filters). -/
def list_persons (persons : PersonsMap)
    (uni first_name last_name email phone birth_date city country : Option String) :
    HResult (List PersonRead) × PersonsMap :=
  let results := dictValues persons
  let results := stepFilter uni (fun v p => p.uni == v) results
  let results := stepFilter first_name (fun v p => p.first_name == v) results
  let results := stepFilter last_name (fun v p => p.last_name == v) results
  let results := stepFilter email (fun v p => p.email == v) results
  let results := stepFilter phone (fun v p => p.phone == v) results
  let results := stepFilter birth_date (fun v p => p.birth_date == v) results
  let results := stepFilter city
    (fun v p => p.addresses.any (fun addr => addr.city == v)) results
  let results := stepFilter country
    (fun v p => p.addresses.any (fun addr => addr.country == v)) results
  (.ok 200 results, persons)

/-- main.py `update_person` (PATCH /persons/{person_id}): same merge pattern
as `update_address`. -/
def update_person (persons : PersonsMap) (person_id : Nat)
    (update : PersonUpdate) : HResult PersonRead × PersonsMap :=
  match lookupKey persons person_id with
  | none => (.error 404 "Person not found", persons)
  | some stored =>
      let merged : PersonRead :=
        ⟨stored.id, update.uni.getD stored.uni,
          update.first_name.getD stored.first_name,
          update.last_name.getD stored.last_name,
          update.email.getD stored.email, update.phone.getD stored.phone,
          update.birth_date.getD stored.birth_date,
          update.addresses.getD stored.addresses⟩
      (.ok 200 merged, dictSet persons person_id merged)

/-! ## Specification-side definitions used to state the claims -/

/-- Numeric value of a decimal digit character (used to read a rendered
number back, establishing injectivity of the rendering). -/
def digitVal (c : Char) : Nat := c.toNat - '0'.toNat

/-- Value of a most-significant-first digit string. -/
def charsVal : List Char → Nat
  | [] => 0
  | c :: cs => digitVal c * 10 ^ cs.length + charsVal cs

/-- The conjunction of the optional GET /courses filter predicates, stated
per the spec: equality on code, dept_id and instructor, inclusive bounds on
credits. -/
def courseMatches (code dept_id instructor : Option String)
    (min_credits max_credits : Option Int) (c : Course) : Bool :=
  optPred max_credits (fun v c => decide (c.credits ≤ v)) c &&
    (optPred min_credits (fun v c => decide (v ≤ c.credits)) c &&
      (optPred instructor (fun v c => c.instructor == v) c &&
        (optPred dept_id (fun v c => c.dept_id == v) c &&
          optPred code (fun v c => c.code == v) c)))

/-- The conjunction of the optional GET /persons filter predicates, including
the nested any-address city and country checks. -/
def personMatches (uni first_name last_name email phone birth_date city country :
    Option String) (p : PersonRead) : Bool :=
  optPred country (fun v p => p.addresses.any (fun addr => addr.country == v)) p &&
    (optPred city (fun v p => p.addresses.any (fun addr => addr.city == v)) p &&
      (optPred birth_date (fun v p => p.birth_date == v) p &&
        (optPred phone (fun v p => p.phone == v) p &&
          (optPred email (fun v p => p.email == v) p &&
            (optPred last_name (fun v p => p.last_name == v) p &&
              (optPred first_name (fun v p => p.first_name == v) p &&
                optPred uni (fun v p => p.uni == v) p))))))

/-- Key-value coherence for the courses map: every entry's key is the stored
course's own code. -/
def coursesWF (m : CoursesMap) : Prop := ∀ kv ∈ m, kv.1 = kv.2.code

/-- Key-value coherence for the enrollments map: every entry's key is the
composite key built from the stored enrollment's own fields. -/
def enrollmentsWF (m : EnrollmentsMap) : Prop :=
  ∀ kv ∈ m, kv.1 = _enroll_key kv.2.uni kv.2.course_code kv.2.year kv.2.term

/-! ## Helper lemmas about the dict model -/

theorem lookupKey_dictSet_self [DecidableEq κ] (m : List (κ × α)) (k : κ) (v : α) :
    lookupKey (dictSet m k v) k = some v := by
  induction m with
  | nil => simp [dictSet, lookupKey]
  | cons kv rest ih =>
    obtain ⟨k', v'⟩ := kv
    by_cases h : k' = k
    · simp [dictSet, h, lookupKey]
    · simp [dictSet, h, lookupKey, ih]

theorem mem_dictSet [DecidableEq κ] {m : List (κ × α)} {k : κ} {v : α}
    {kv : κ × α} (h : kv ∈ dictSet m k v) : kv ∈ m ∨ kv = (k, v) := by
  induction m with
  | nil => simpa [dictSet] using h
  | cons kv' rest ih =>
    obtain ⟨k', v'⟩ := kv'
    by_cases hk : k' = k
    · rw [dictSet, if_pos hk] at h
      rcases List.mem_cons.mp h with h1 | h1
      · exact Or.inr h1
      · exact Or.inl (List.mem_cons_of_mem _ h1)
    · rw [dictSet, if_neg hk] at h
      rcases List.mem_cons.mp h with h1 | h1
      · exact Or.inl (h1 ▸ List.mem_cons_self _ _)
      · rcases ih h1 with h2 | h2
        · exact Or.inl (List.mem_cons_of_mem _ h2)
        · exact Or.inr h2

theorem optPred_none (f : β → α → Bool) :
    optPred (none : Option β) f = fun _ => true := rfl

theorem optPred_some (v : β) (f : β → α → Bool) : optPred (some v) f = f v := rfl

theorem stepFilter_eq_filter (o : Option β) (f : β → α → Bool) (l : List α) :
    stepFilter o f l = l.filter (optPred o f) := by
  cases o with
  | none => simp [stepFilter, optPred_none]
  | some v => simp [stepFilter, optPred_some]

theorem optPred_eq_true_iff (o : Option β) (f : β → α → Bool) (a : α) :
    optPred o f a = true ↔ ∀ v ∈ o, f v a = true := by
  cases o with
  | none => simp [optPred]
  | some v => simp [optPred]

/-! ## Helper lemmas for the composite key: splitting on an unshared
delimiter, and decimal renderings of integers never containing the pipe -/

theorem append_pipe_inj : ∀ (xs ys as bs : List Char), '|' ∉ xs → '|' ∉ ys →
    xs ++ '|' :: as = ys ++ '|' :: bs → xs = ys ∧ as = bs := by
  intro xs
  induction xs with
  | nil =>
    intro ys as bs _ hy h
    cases ys with
    | nil => simpa using h
    | cons y ys =>
      simp only [List.nil_append, List.cons_append, List.cons.injEq] at h
      exact absurd (h.1 ▸ List.mem_cons_self y ys) (h.1 ▸ hy)
  | cons x xs ih =>
    intro ys as bs hx hy h
    cases ys with
    | nil =>
      simp only [List.cons_append, List.nil_append, List.cons.injEq] at h
      exact absurd (h.1 ▸ List.mem_cons_self x xs) (fun hm => hx (h.1 ▸ hm))
    | cons y ys =>
      simp only [List.cons_append, List.cons.injEq] at h
      obtain ⟨rfl, h2⟩ := h
      have hx' : '|' ∉ xs := fun hm => hx (List.mem_cons_of_mem _ hm)
      have hy' : '|' ∉ ys := fun hm => hy (List.mem_cons_of_mem _ hm)
      obtain ⟨rfl, rfl⟩ := ih ys as bs hx' hy' h2
      exact ⟨rfl, rfl⟩

theorem digitChar_ne_pipe_and_minus (n : Nat) :
    Nat.digitChar n ≠ '|' ∧ Nat.digitChar n ≠ '-' := by
  rcases Nat.lt_or_ge n 16 with h | h
  · interval_cases n <;> exact ⟨by decide, by decide⟩
  · have h0 : n ≠ 0 := by omega
    have h1 : n ≠ 1 := by omega
    have h2 : n ≠ 2 := by omega
    have h3 : n ≠ 3 := by omega
    have h4 : n ≠ 4 := by omega
    have h5 : n ≠ 5 := by omega
    have h6 : n ≠ 6 := by omega
    have h7 : n ≠ 7 := by omega
    have h8 : n ≠ 8 := by omega
    have h9 : n ≠ 9 := by omega
    have ha : n ≠ 10 := by omega
    have hb : n ≠ 11 := by omega
    have hc : n ≠ 12 := by omega
    have hd : n ≠ 13 := by omega
    have he : n ≠ 14 := by omega
    have hf : n ≠ 15 := by omega
    unfold Nat.digitChar
    rw [if_neg h0, if_neg h1, if_neg h2, if_neg h3, if_neg h4, if_neg h5,
      if_neg h6, if_neg h7, if_neg h8, if_neg h9, if_neg ha, if_neg hb,
      if_neg hc, if_neg hd, if_neg he, if_neg hf]
    exact ⟨by decide, by decide⟩

theorem digitChar_ne_pipe (n : Nat) : Nat.digitChar n ≠ '|' :=
  (digitChar_ne_pipe_and_minus n).1

theorem digitChar_ne_minus (n : Nat) : Nat.digitChar n ≠ '-' :=
  (digitChar_ne_pipe_and_minus n).2

theorem toDigitsCore_no_pipe (b : Nat) : ∀ (fuel n : Nat) (ds : List Char),
    '|' ∉ ds → '|' ∉ Nat.toDigitsCore b fuel n ds := by
  intro fuel
  induction fuel with
  | zero =>
    intro n ds h
    simpa [Nat.toDigitsCore] using h
  | succ fuel ih =>
    intro n ds h
    simp only [Nat.toDigitsCore]
    have hcons : '|' ∉ Nat.digitChar (n % b) :: ds := by
      intro hm
      rcases List.mem_cons.mp hm with h1 | h1
      · exact digitChar_ne_pipe (n % b) h1.symm
      · exact h h1
    split
    · exact hcons
    · exact ih (n / b) (Nat.digitChar (n % b) :: ds) hcons

theorem natRepr_no_pipe (n : Nat) : '|' ∉ (Nat.repr n).data := by
  have : (Nat.repr n).data = Nat.toDigitsCore 10 (n + 1) n [] := rfl
  rw [this]
  exact toDigitsCore_no_pipe 10 (n + 1) n [] (by simp)

theorem intToString_no_pipe (y : Int) : '|' ∉ (toString y).data := by
  cases y with
  | ofNat m => exact natRepr_no_pipe m
  | negSucc m =>
    have : (toString (Int.negSucc m)).data = '-' :: (Nat.repr (m + 1)).data := rfl
    rw [this]
    intro hm
    rcases List.mem_cons.mp hm with h1 | h1
    · exact absurd h1 (by decide)
    · exact natRepr_no_pipe (m + 1) h1

theorem toDigitsCore_no_minus (b : Nat) : ∀ (fuel n : Nat) (ds : List Char),
    '-' ∉ ds → '-' ∉ Nat.toDigitsCore b fuel n ds := by
  intro fuel
  induction fuel with
  | zero =>
    intro n ds h
    simpa [Nat.toDigitsCore] using h
  | succ fuel ih =>
    intro n ds h
    simp only [Nat.toDigitsCore]
    have hcons : '-' ∉ Nat.digitChar (n % b) :: ds := by
      intro hm
      rcases List.mem_cons.mp hm with h1 | h1
      · exact digitChar_ne_minus (n % b) h1.symm
      · exact h h1
    split
    · exact hcons
    · exact ih (n / b) (Nat.digitChar (n % b) :: ds) hcons

theorem natRepr_no_minus (n : Nat) : '-' ∉ (Nat.repr n).data := by
  have : (Nat.repr n).data = Nat.toDigitsCore 10 (n + 1) n [] := rfl
  rw [this]
  exact toDigitsCore_no_minus 10 (n + 1) n [] (by simp)

theorem mem_of_lookupKey [DecidableEq κ] {m : List (κ × α)} {k : κ} {v : α}
    (h : lookupKey m k = some v) : (k, v) ∈ m := by
  induction m with
  | nil => simp [lookupKey] at h
  | cons kv rest ih =>
    obtain ⟨k', v'⟩ := kv
    rw [lookupKey] at h
    by_cases hk : k' = k
    · rw [if_pos hk] at h
      obtain rfl : v' = v := Option.some.inj h
      exact hk ▸ List.mem_cons_self _ _
    · rw [if_neg hk] at h
      exact List.mem_cons_of_mem _ (ih h)

theorem digitVal_digitChar (m : Nat) (h : m < 10) :
    digitVal (Nat.digitChar m) = m := by
  interval_cases m <;> decide

theorem charsVal_toDigitsCore : ∀ (fuel n : Nat) (ds : List Char), n < fuel →
    charsVal (Nat.toDigitsCore 10 fuel n ds) = n * 10 ^ ds.length + charsVal ds := by
  intro fuel
  induction fuel with
  | zero =>
    intro n ds h
    exact absurd h (Nat.not_lt_zero n)
  | succ fuel ih =>
    intro n ds h
    simp only [Nat.toDigitsCore]
    split
    · rename_i h10
      have hn : n < 10 := by omega
      simp only [charsVal]
      rw [digitVal_digitChar (n % 10) (Nat.mod_lt n (by omega)),
        Nat.mod_eq_of_lt hn]
    · rename_i h10
      have hq : n / 10 < fuel := by omega
      rw [ih (n / 10) (Nat.digitChar (n % 10) :: ds) hq]
      simp only [charsVal, List.length_cons]
      rw [digitVal_digitChar (n % 10) (Nat.mod_lt n (by omega))]
      have hmod : 10 * (n / 10) + n % 10 = n := Nat.div_add_mod n 10
      set q := n / 10
      set r := n % 10
      rw [pow_succ, ← hmod]
      ring

theorem charsVal_toDigits (n : Nat) : charsVal (Nat.toDigits 10 n) = n := by
  have h := charsVal_toDigitsCore (n + 1) n [] (Nat.lt_succ_self n)
  simpa [Nat.toDigits, charsVal] using h

theorem natRepr_injective {m n : Nat} (h : Nat.repr m = Nat.repr n) : m = n := by
  have hd : Nat.toDigits 10 m = Nat.toDigits 10 n := congrArg String.data h
  calc m = charsVal (Nat.toDigits 10 m) := (charsVal_toDigits m).symm
    _ = charsVal (Nat.toDigits 10 n) := by rw [hd]
    _ = n := charsVal_toDigits n

theorem intToString_injective {a b : Int} (h : toString a = toString b) :
    a = b := by
  cases a with
  | ofNat m =>
    cases b with
    | ofNat n => exact congrArg Int.ofNat (natRepr_injective h)
    | negSucc n =>
      exfalso
      have hd : (Nat.repr m).data = '-' :: (Nat.repr (n + 1)).data :=
        congrArg String.data h
      exact natRepr_no_minus m (hd ▸ List.mem_cons_self _ _)
  | negSucc m =>
    cases b with
    | ofNat n =>
      exfalso
      have hd : (Nat.repr n).data = '-' :: (Nat.repr (m + 1)).data :=
        (congrArg String.data h).symm
      exact natRepr_no_minus n (hd ▸ List.mem_cons_self _ _)
    | negSucc n =>
      have hd : '-' :: (Nat.repr (m + 1)).data = '-' :: (Nat.repr (n + 1)).data :=
        congrArg String.data h
      have hr : Nat.repr (m + 1) = Nat.repr (n + 1) :=
        String.ext (List.cons.inj hd).2
      have hmn : m + 1 = n + 1 := natRepr_injective hr
      obtain rfl : m = n := by omega
      rfl

/-! ## Claim theorems -/

/-- C1 counterexample: the claim fails as stated. The two tuples
("ab|c", "d", 1, "t") and ("ab", "c|d", 1, "t") both satisfy the Enrollment
schema (uni at least 2 characters, the other fields unconstrained), differ in
their uni and course_code components, yet _enroll_key maps them to the same
pipe-joined string "ab|c|d|1|t". -/
theorem C1_counterexample :
    (2 ≤ ("ab|c" : String).length ∧ 2 ≤ ("ab" : String).length ∧
      ("ab|c" : String) ≠ "ab") ∧
    _enroll_key "ab|c" "d" 1 "t" = _enroll_key "ab" "c|d" 1 "t" :=
  ⟨by decide, rfl⟩

/-- C1 amended: _enroll_key is deterministic, and it is injective on tuples
whose string components contain no pipe delimiter: under that restriction two
tuples produce the same key exactly when they are equal componentwise. -/
theorem C1_enroll_key_injective (u1 c1 : String) (y1 : Int) (t1 : String)
    (u2 c2 : String) (y2 : Int) (t2 : String)
    (hu1 : '|' ∉ u1.data) (hc1 : '|' ∉ c1.data) (ht1 : '|' ∉ t1.data)
    (hu2 : '|' ∉ u2.data) (hc2 : '|' ∉ c2.data) (ht2 : '|' ∉ t2.data) :
    _enroll_key u1 c1 y1 t1 = _enroll_key u2 c2 y2 t2 ↔
      u1 = u2 ∧ c1 = c2 ∧ y1 = y2 ∧ t1 = t2 := by
  constructor
  · intro h
    have hd : u1.data ++ '|' :: (c1.data ++ '|' :: ((toString y1).data ++ '|' :: t1.data)) =
        u2.data ++ '|' :: (c2.data ++ '|' :: ((toString y2).data ++ '|' :: t2.data)) := by
      have hdata := congrArg String.data h
      simpa [_enroll_key, String.data_append, List.append_assoc,
        show ("|" : String).data = ['|'] from rfl] using hdata
    obtain ⟨hu, hrest⟩ := append_pipe_inj _ _ _ _ hu1 hu2 hd
    obtain ⟨hc, hrest2⟩ := append_pipe_inj _ _ _ _ hc1 hc2 hrest
    obtain ⟨hy, ht⟩ := append_pipe_inj _ _ _ _ (intToString_no_pipe y1)
      (intToString_no_pipe y2) hrest2
    exact ⟨String.ext hu, String.ext hc,
      intToString_injective (String.ext hy), String.ext ht⟩
  · rintro ⟨rfl, rfl, rfl, rfl⟩
    rfl

/-- C1 witness: the amended injectivity theorem applied at concrete pipe-free
inputs. -/
theorem C1_enroll_key_injective_witness :
    _enroll_key "ab" "cd" 3 "FALL" = _enroll_key "ab" "cd" 3 "FALL" ↔
      ("ab" : String) = "ab" ∧ ("cd" : String) = "cd" ∧ (3 : Int) = 3 ∧
        ("FALL" : String) = "FALL" :=
  C1_enroll_key_injective "ab" "cd" 3 "FALL" "ab" "cd" 3 "FALL"
    (by decide) (by decide) (by decide) (by decide) (by decide) (by decide)

/-- C2 counterexample: with a person already stored under id 0 and the uuid
generator producing 0 again, create_person reports the id as taken yet
returns status 201 (not 400) and silently overwrites the stored person. -/
theorem C2_counterexample :
    containsKey [(0, (⟨0, "ab", "A", "B", "e", "p", "2000-01-01", []⟩ : PersonRead))] 0 = true ∧
    (create_person [(0, (⟨0, "ab", "A", "B", "e", "p", "2000-01-01", []⟩ : PersonRead))]
        ⟨"cd", "C", "D", "e2", "p2", "2001-01-01", []⟩ 0).1 =
      HResult.ok 201 ⟨0, "cd", "C", "D", "e2", "p2", "2001-01-01", []⟩ ∧
    (create_person [(0, (⟨0, "ab", "A", "B", "e", "p", "2000-01-01", []⟩ : PersonRead))]
        ⟨"cd", "C", "D", "e2", "p2", "2001-01-01", []⟩ 0).2 =
      [(0, ⟨0, "cd", "C", "D", "e2", "p2", "2001-01-01", []⟩)] :=
  ⟨rfl, rfl, rfl⟩

/-- C2 amended: POST /persons always creates and returns status 201; the
handler has no duplicate-id branch, so a conflicting generated id overwrites
the stored person rather than producing a 400. -/
theorem C2_create_person_always_201 (persons : PersonsMap)
    (person : PersonCreate) (newId : Nat) :
    (create_person persons person newId).1 =
      HResult.ok 201 ⟨newId, person.uni, person.first_name, person.last_name,
        person.email, person.phone, person.birth_date, person.addresses⟩ ∧
    (create_person persons person newId).2 =
      dictSet persons newId ⟨newId, person.uni, person.first_name,
        person.last_name, person.email, person.phone, person.birth_date,
        person.addresses⟩ ∧
    ∀ s d, (create_person persons person newId).1 ≠ HResult.error s d := by
  refine ⟨rfl, rfl, ?_⟩
  intro s d hcontra
  simp [create_person] at hcontra

/-- C3: a partial update on a stored Address or Person succeeds with 200 and
merges only the explicitly-supplied payload fields: each omitted field keeps
exactly its prior value, each supplied field takes the payload value, and the
identity field always keeps its prior value (the Update payload shapes carry
no identity field at all, so including one is impossible). -/
theorem C3_partial_update_frame (addresses : AddressesMap) (persons : PersonsMap)
    (address_id person_id : Nat) (au : AddressUpdate) (pu : PersonUpdate)
    (a : AddressRead) (p : PersonRead)
    (ha : lookupKey addresses address_id = some a)
    (hp : lookupKey persons person_id = some p) :
    (∃ a', (update_address addresses address_id au).1 = HResult.ok 200 a' ∧
      a'.id = a.id ∧
      (au.street = none → a'.street = a.street) ∧
      (∀ v, au.street = some v → a'.street = v) ∧
      (au.city = none → a'.city = a.city) ∧
      (∀ v, au.city = some v → a'.city = v) ∧
      (au.state = none → a'.state = a.state) ∧
      (∀ v, au.state = some v → a'.state = v) ∧
      (au.postal_code = none → a'.postal_code = a.postal_code) ∧
      (∀ v, au.postal_code = some v → a'.postal_code = v) ∧
      (au.country = none → a'.country = a.country) ∧
      (∀ v, au.country = some v → a'.country = v)) ∧
    (∃ p', (update_person persons person_id pu).1 = HResult.ok 200 p' ∧
      p'.id = p.id ∧
      (pu.uni = none → p'.uni = p.uni) ∧
      (∀ v, pu.uni = some v → p'.uni = v) ∧
      (pu.first_name = none → p'.first_name = p.first_name) ∧
      (∀ v, pu.first_name = some v → p'.first_name = v) ∧
      (pu.last_name = none → p'.last_name = p.last_name) ∧
      (∀ v, pu.last_name = some v → p'.last_name = v) ∧
      (pu.email = none → p'.email = p.email) ∧
      (∀ v, pu.email = some v → p'.email = v) ∧
      (pu.phone = none → p'.phone = p.phone) ∧
      (∀ v, pu.phone = some v → p'.phone = v) ∧
      (pu.birth_date = none → p'.birth_date = p.birth_date) ∧
      (∀ v, pu.birth_date = some v → p'.birth_date = v) ∧
      (pu.addresses = none → p'.addresses = p.addresses) ∧
      (∀ v, pu.addresses = some v → p'.addresses = v)) := by
  constructor
  · refine ⟨⟨a.id, au.street.getD a.street, au.city.getD a.city,
      au.state.getD a.state, au.postal_code.getD a.postal_code,
      au.country.getD a.country⟩, ?_, rfl, ?_, ?_, ?_, ?_, ?_, ?_, ?_, ?_, ?_, ?_⟩
    · simp [update_address, ha]
    all_goals first
      | (intro h; simp [h])
      | (intro v h; simp [h])
  · refine ⟨⟨p.id, pu.uni.getD p.uni, pu.first_name.getD p.first_name,
      pu.last_name.getD p.last_name, pu.email.getD p.email,
      pu.phone.getD p.phone, pu.birth_date.getD p.birth_date,
      pu.addresses.getD p.addresses⟩, ?_, rfl, ?_, ?_, ?_, ?_, ?_, ?_, ?_, ?_,
      ?_, ?_, ?_, ?_, ?_, ?_⟩
    · simp [update_person, hp]
    all_goals first
      | (intro h; simp [h])
      | (intro v h; simp [h])

/-- C3 witness: the frame theorem applied to a one-entry address store and
one-entry person store with a payload that sets only city (respectively only
email). -/
theorem C3_partial_update_frame_witness :
    (∃ a', (update_address [(7, (⟨7, "s", "c", "st", "z", "co"⟩ : AddressRead))] 7
        ⟨none, some "c2", none, none, none⟩).1 = HResult.ok 200 a' ∧
      a'.id = (⟨7, "s", "c", "st", "z", "co"⟩ : AddressRead).id ∧
      ((none : Option String) = none → a'.street = (⟨7, "s", "c", "st", "z", "co"⟩ : AddressRead).street) ∧
      (∀ v, (none : Option String) = some v → a'.street = v) ∧
      ((some "c2" : Option String) = none → a'.city = (⟨7, "s", "c", "st", "z", "co"⟩ : AddressRead).city) ∧
      (∀ v, (some "c2" : Option String) = some v → a'.city = v) ∧
      ((none : Option String) = none → a'.state = (⟨7, "s", "c", "st", "z", "co"⟩ : AddressRead).state) ∧
      (∀ v, (none : Option String) = some v → a'.state = v) ∧
      ((none : Option String) = none → a'.postal_code = (⟨7, "s", "c", "st", "z", "co"⟩ : AddressRead).postal_code) ∧
      (∀ v, (none : Option String) = some v → a'.postal_code = v) ∧
      ((none : Option String) = none → a'.country = (⟨7, "s", "c", "st", "z", "co"⟩ : AddressRead).country) ∧
      (∀ v, (none : Option String) = some v → a'.country = v)) ∧
    (∃ p', (update_person [(9, (⟨9, "ab", "F", "L", "e", "ph", "2000-01-01", []⟩ : PersonRead))] 9
        ⟨none, none, none, some "e2", none, none, none⟩).1 = HResult.ok 200 p' ∧
      p'.id = (⟨9, "ab", "F", "L", "e", "ph", "2000-01-01", []⟩ : PersonRead).id ∧
      ((none : Option String) = none → p'.uni = (⟨9, "ab", "F", "L", "e", "ph", "2000-01-01", []⟩ : PersonRead).uni) ∧
      (∀ v, (none : Option String) = some v → p'.uni = v) ∧
      ((none : Option String) = none → p'.first_name = (⟨9, "ab", "F", "L", "e", "ph", "2000-01-01", []⟩ : PersonRead).first_name) ∧
      (∀ v, (none : Option String) = some v → p'.first_name = v) ∧
      ((none : Option String) = none → p'.last_name = (⟨9, "ab", "F", "L", "e", "ph", "2000-01-01", []⟩ : PersonRead).last_name) ∧
      (∀ v, (none : Option String) = some v → p'.last_name = v) ∧
      ((some "e2" : Option String) = none → p'.email = (⟨9, "ab", "F", "L", "e", "ph", "2000-01-01", []⟩ : PersonRead).email) ∧
      (∀ v, (some "e2" : Option String) = some v → p'.email = v) ∧
      ((none : Option String) = none → p'.phone = (⟨9, "ab", "F", "L", "e", "ph", "2000-01-01", []⟩ : PersonRead).phone) ∧
      (∀ v, (none : Option String) = some v → p'.phone = v) ∧
      ((none : Option String) = none → p'.birth_date = (⟨9, "ab", "F", "L", "e", "ph", "2000-01-01", []⟩ : PersonRead).birth_date) ∧
      (∀ v, (none : Option String) = some v → p'.birth_date = v) ∧
      ((none : Option (List AddressBase)) = none → p'.addresses = (⟨9, "ab", "F", "L", "e", "ph", "2000-01-01", []⟩ : PersonRead).addresses) ∧
      (∀ v, (none : Option (List AddressBase)) = some v → p'.addresses = v)) :=
  C3_partial_update_frame [(7, ⟨7, "s", "c", "st", "z", "co"⟩)]
    [(9, ⟨9, "ab", "F", "L", "e", "ph", "2000-01-01", []⟩)] 7 9
    ⟨none, some "c2", none, none, none⟩ ⟨none, none, none, some "e2", none, none, none⟩
    ⟨7, "s", "c", "st", "z", "co"⟩ ⟨9, "ab", "F", "L", "e", "ph", "2000-01-01", []⟩
    rfl rfl

/-- C4: creating an Address, Course or Enrollment whose identity (id, code,
composite key respectively) is already present fails with HTTP 400 and
leaves the whole map — in particular the stored value under that identity —
unchanged. -/
theorem C4_create_conflict (addresses : AddressesMap) (courses : CoursesMap)
    (enrollments : EnrollmentsMap) (a : AddressCreate) (c : Course)
    (e : Enrollment)
    (ha : containsKey addresses a.id = true)
    (hc : containsKey courses c.code = true)
    (he : containsKey enrollments
      (_enroll_key e.uni e.course_code e.year e.term) = true) :
    create_address addresses a =
      (HResult.error 400 "Address with this ID already exists", addresses) ∧
    create_course courses c =
      (HResult.error 400 "Course with this code already exists", courses) ∧
    create_enrollment enrollments e =
      (HResult.error 400
        "Enrollment already exists for this (uni, course, year, term)",
        enrollments) := by
  refine ⟨?_, ?_, ?_⟩
  · simp [create_address, ha]
  · simp [create_course, hc]
  · simp [create_enrollment, he]

/-- C4 witness: the conflict theorem applied to singleton stores already
holding the conflicting identities. -/
theorem C4_create_conflict_witness :
    create_address [(1, (⟨1, "s", "c", "st", "z", "co"⟩ : AddressRead))]
        ⟨1, "s2", "c2", "st2", "z2", "co2"⟩ =
      (HResult.error 400 "Address with this ID already exists",
        [(1, ⟨1, "s", "c", "st", "z", "co"⟩)]) ∧
    create_course [("COMS W4153", (⟨"COMS W4153", "Cloud", "DF", 3, "COMS"⟩ : Course))]
        ⟨"COMS W4153", "Other", "X", 4, "COMS"⟩ =
      (HResult.error 400 "Course with this code already exists",
        [("COMS W4153", ⟨"COMS W4153", "Cloud", "DF", 3, "COMS"⟩)]) ∧
    create_enrollment
        [(_enroll_key "ab" "cc" 2025 "FALL",
          (⟨"ab", "cc", 2025, "FALL", "enrolled"⟩ : Enrollment))]
        ⟨"ab", "cc", 2025, "FALL", "waitlisted"⟩ =
      (HResult.error 400
        "Enrollment already exists for this (uni, course, year, term)",
        [(_enroll_key "ab" "cc" 2025 "FALL", ⟨"ab", "cc", 2025, "FALL", "enrolled"⟩)]) :=
  C4_create_conflict [(1, ⟨1, "s", "c", "st", "z", "co"⟩)]
    [("COMS W4153", ⟨"COMS W4153", "Cloud", "DF", 3, "COMS"⟩)]
    [(_enroll_key "ab" "cc" 2025 "FALL", ⟨"ab", "cc", 2025, "FALL", "enrolled"⟩)]
    ⟨1, "s2", "c2", "st2", "z2", "co2"⟩ ⟨"COMS W4153", "Other", "X", 4, "COMS"⟩
    ⟨"ab", "cc", 2025, "FALL", "waitlisted"⟩ rfl rfl (by decide)

/-- C5: when a Course or Enrollment create succeeds (its identity is fresh),
the create returns 201 with the record, and an immediate get on that identity
in the resulting store returns 200 with the very same record. -/
theorem C5_create_then_get (courses : CoursesMap) (enrollments : EnrollmentsMap)
    (c : Course) (e : Enrollment)
    (hc : containsKey courses c.code = false)
    (he : containsKey enrollments
      (_enroll_key e.uni e.course_code e.year e.term) = false) :
    create_course courses c = (HResult.ok 201 c, dictSet courses c.code c) ∧
    get_course (create_course courses c).2 c.code =
      (HResult.ok 200 c, (create_course courses c).2) ∧
    create_enrollment enrollments e =
      (HResult.ok 201 e,
        dictSet enrollments (_enroll_key e.uni e.course_code e.year e.term) e) ∧
    get_enrollment (create_enrollment enrollments e).2 e.uni e.course_code
        e.year e.term =
      (HResult.ok 200 e, (create_enrollment enrollments e).2) := by
  have h1 : create_course courses c = (HResult.ok 201 c, dictSet courses c.code c) := by
    simp [create_course, hc]
  have h2 : create_enrollment enrollments e =
      (HResult.ok 201 e,
        dictSet enrollments (_enroll_key e.uni e.course_code e.year e.term) e) := by
    simp [create_enrollment, he]
  refine ⟨h1, ?_, h2, ?_⟩
  · rw [h1]
    simp [get_course, lookupKey_dictSet_self]
  · rw [h2]
    simp [get_enrollment, lookupKey_dictSet_self]

/-- C5 witness: create-then-get applied to empty stores. -/
theorem C5_create_then_get_witness :
    create_course [] ⟨"COMS W4153", "Cloud", "DF", 3, "COMS"⟩ =
      (HResult.ok 201 ⟨"COMS W4153", "Cloud", "DF", 3, "COMS"⟩,
        dictSet [] "COMS W4153" ⟨"COMS W4153", "Cloud", "DF", 3, "COMS"⟩) ∧
    get_course (create_course [] ⟨"COMS W4153", "Cloud", "DF", 3, "COMS"⟩).2
        "COMS W4153" =
      (HResult.ok 200 ⟨"COMS W4153", "Cloud", "DF", 3, "COMS"⟩,
        (create_course [] ⟨"COMS W4153", "Cloud", "DF", 3, "COMS"⟩).2) ∧
    create_enrollment [] ⟨"ab", "cc", 2025, "FALL", "enrolled"⟩ =
      (HResult.ok 201 ⟨"ab", "cc", 2025, "FALL", "enrolled"⟩,
        dictSet [] (_enroll_key "ab" "cc" 2025 "FALL")
          ⟨"ab", "cc", 2025, "FALL", "enrolled"⟩) ∧
    get_enrollment (create_enrollment [] ⟨"ab", "cc", 2025, "FALL", "enrolled"⟩).2
        "ab" "cc" 2025 "FALL" =
      (HResult.ok 200 ⟨"ab", "cc", 2025, "FALL", "enrolled"⟩,
        (create_enrollment [] ⟨"ab", "cc", 2025, "FALL", "enrolled"⟩).2) :=
  C5_create_then_get [] [] ⟨"COMS W4153", "Cloud", "DF", 3, "COMS"⟩
    ⟨"ab", "cc", 2025, "FALL", "enrolled"⟩ rfl rfl

/-- C6: updating a Person, Address or Enrollment status under an identity not
present in the corresponding map fails with HTTP 404 and leaves the entire
map unchanged. -/
theorem C6_update_not_found (addresses : AddressesMap) (persons : PersonsMap)
    (enrollments : EnrollmentsMap) (address_id person_id : Nat)
    (au : AddressUpdate) (pu : PersonUpdate) (uni course_code : String)
    (year : Int) (term status : String)
    (ha : lookupKey addresses address_id = none)
    (hp : lookupKey persons person_id = none)
    (he : lookupKey enrollments (_enroll_key uni course_code year term) = none) :
    update_address addresses address_id au =
      (HResult.error 404 "Address not found", addresses) ∧
    update_person persons person_id pu =
      (HResult.error 404 "Person not found", persons) ∧
    update_enrollment_status enrollments uni course_code year term status =
      (HResult.error 404 "Enrollment not found", enrollments) := by
  refine ⟨?_, ?_, ?_⟩
  · simp [update_address, ha]
  · simp [update_person, hp]
  · simp [update_enrollment_status, he]

/-- C6 witness: the not-found theorem applied to singleton stores and
identities absent from them. -/
theorem C6_update_not_found_witness :
    update_address [(1, (⟨1, "s", "c", "st", "z", "co"⟩ : AddressRead))] 2
        ⟨some "s2", none, none, none, none⟩ =
      (HResult.error 404 "Address not found",
        [(1, ⟨1, "s", "c", "st", "z", "co"⟩)]) ∧
    update_person [] 5 ⟨none, none, none, none, none, none, none⟩ =
      (HResult.error 404 "Person not found", []) ∧
    update_enrollment_status [] "ab" "cc" 2025 "FALL" "dropped" =
      (HResult.error 404 "Enrollment not found", []) :=
  C6_update_not_found [(1, ⟨1, "s", "c", "st", "z", "co"⟩)] [] [] 2 5
    ⟨some "s2", none, none, none, none⟩ ⟨none, none, none, none, none, none, none⟩
    "ab" "cc" 2025 "FALL" "dropped" (by decide) rfl rfl

/-- C7: list returns exactly the stored entities satisfying every supplied
filter predicate (their conjunction, with min_credits and max_credits as
inclusive bounds and the person city and country filters matching any
embedded address), in the stored order; with no filters supplied it returns
every stored entity in insertion order. -/
theorem C7_list_filters_exact (courses : CoursesMap) (persons : PersonsMap)
    (code dept_id instructor : Option String)
    (min_credits max_credits : Option Int)
    (uni first_name last_name email phone birth_date city country : Option String) :
    ((list_courses courses code dept_id instructor min_credits max_credits).1 =
        HResult.ok 200 ((dictValues courses).filter
          (courseMatches code dept_id instructor min_credits max_credits)) ∧
      (list_courses courses none none none none none).1 =
        HResult.ok 200 (dictValues courses) ∧
      ∀ c : Course,
        courseMatches code dept_id instructor min_credits max_credits c = true ↔
          ((∀ v ∈ code, c.code = v) ∧ (∀ v ∈ dept_id, c.dept_id = v) ∧
            (∀ v ∈ instructor, c.instructor = v) ∧
            (∀ v ∈ min_credits, v ≤ c.credits) ∧
            (∀ v ∈ max_credits, c.credits ≤ v))) ∧
    ((list_persons persons uni first_name last_name email phone birth_date
          city country).1 =
        HResult.ok 200 ((dictValues persons).filter
          (personMatches uni first_name last_name email phone birth_date
            city country)) ∧
      (list_persons persons none none none none none none none none).1 =
        HResult.ok 200 (dictValues persons) ∧
      ∀ p : PersonRead,
        personMatches uni first_name last_name email phone birth_date
            city country p = true ↔
          ((∀ v ∈ uni, p.uni = v) ∧ (∀ v ∈ first_name, p.first_name = v) ∧
            (∀ v ∈ last_name, p.last_name = v) ∧ (∀ v ∈ email, p.email = v) ∧
            (∀ v ∈ phone, p.phone = v) ∧
            (∀ v ∈ birth_date, p.birth_date = v) ∧
            (∀ v ∈ city, ∃ addr ∈ p.addresses, addr.city = v) ∧
            (∀ v ∈ country, ∃ addr ∈ p.addresses, addr.country = v))) := by
  refine ⟨⟨?_, rfl, ?_⟩, ⟨?_, rfl, ?_⟩⟩
  · simp only [list_courses, stepFilter_eq_filter, List.filter_filter]
    rfl
  · intro c
    simp only [courseMatches, Bool.and_eq_true, optPred_eq_true_iff,
      beq_iff_eq, decide_eq_true_eq]
    tauto
  · simp only [list_persons, stepFilter_eq_filter, List.filter_filter]
    rfl
  · intro p
    simp only [personMatches, Bool.and_eq_true, optPred_eq_true_iff,
      beq_iff_eq, List.any_eq_true]
    tauto

/-- C8: a PATCH on the enrollment path of a stored (schema-valid) Enrollment
with a status query value returns 200 and rewrites only the status field:
uni, course_code, year and term of the stored enrollment are carried over
unchanged. -/
theorem C8_patch_enrollment_status (enrollments : EnrollmentsMap)
    (uni course_code : String) (year : Int) (term status : String)
    (e : Enrollment)
    (hfound : lookupKey enrollments (_enroll_key uni course_code year term) =
      some e)
    (hvalid : 2 ≤ e.uni.length) :
    update_enrollment_status enrollments uni course_code year term status =
      (HResult.ok 200 ⟨e.uni, e.course_code, e.year, e.term, status⟩,
        dictSet enrollments (_enroll_key uni course_code year term)
          ⟨e.uni, e.course_code, e.year, e.term, status⟩) := by
  simp only [update_enrollment_status, hfound]
  rw [Enrollment.parse, if_neg (by omega)]

/-- C8 witness: the PATCH theorem applied to a one-entry enrollment store,
rewriting status from enrolled to dropped. -/
theorem C8_patch_enrollment_status_witness :
    update_enrollment_status
        [(_enroll_key "ab" "cc" 2025 "FALL",
          (⟨"ab", "cc", 2025, "FALL", "enrolled"⟩ : Enrollment))]
        "ab" "cc" 2025 "FALL" "dropped" =
      (HResult.ok 200 ⟨"ab", "cc", 2025, "FALL", "dropped"⟩,
        dictSet [(_enroll_key "ab" "cc" 2025 "FALL",
            (⟨"ab", "cc", 2025, "FALL", "enrolled"⟩ : Enrollment))]
          (_enroll_key "ab" "cc" 2025 "FALL")
          ⟨"ab", "cc", 2025, "FALL", "dropped"⟩) :=
  C8_patch_enrollment_status
    [(_enroll_key "ab" "cc" 2025 "FALL", ⟨"ab", "cc", 2025, "FALL", "enrolled"⟩)]
    "ab" "cc" 2025 "FALL" "dropped" ⟨"ab", "cc", 2025, "FALL", "enrolled"⟩
    (by decide) (by decide)

/-- C9: pydantic schema validation, a pure check, accepts a Course payload
exactly when credits lies in the inclusive range [0, 6] and an Enrollment
payload exactly when uni has at least 2 characters, and rejects with a
ValidationError exactly otherwise. -/
theorem C9_schema_validation (code title instructor dept_id : String)
    (credits : Int) (uni course_code : String) (year : Int)
    (term status : String) :
    (Course.parse code title instructor credits dept_id =
        Except.ok ⟨code, title, instructor, credits, dept_id⟩ ↔
      0 ≤ credits ∧ credits ≤ 6) ∧
    ((∃ err, Course.parse code title instructor credits dept_id =
        Except.error err) ↔ credits < 0 ∨ 6 < credits) ∧
    (Enrollment.parse uni course_code year term status =
        Except.ok ⟨uni, course_code, year, term, status⟩ ↔ 2 ≤ uni.length) ∧
    ((∃ err, Enrollment.parse uni course_code year term status =
        Except.error err) ↔ uni.length < 2) := by
  refine ⟨?_, ?_, ?_, ?_⟩
  · rw [Course.parse]
    split_ifs with h1 h2 <;> simp <;> omega
  · rw [Course.parse]
    split_ifs with h1 h2 <;> simp <;> omega
  · rw [Enrollment.parse]
    split_ifs with h1 <;> simp <;> omega
  · rw [Enrollment.parse]
    split_ifs with h1 <;> simp <;> omega

/-- C10: key-value coherence is an invariant of every operation on the
courses and enrollments maps — reads leave the maps untouched, create_course
inserts under the course's own code, create_enrollment inserts under the
composite key of the enrollment's own fields, and the status PATCH keeps the
entry's key matching its (unchanged) key fields. -/
theorem C10_key_value_coherence (courses : CoursesMap)
    (enrollments : EnrollmentsMap) (c : Course) (e : Enrollment) (qc : String)
    (code dept_id instructor : Option String)
    (min_credits max_credits : Option Int)
    (funi fcourse_code : Option String) (fyear : Option Int)
    (fterm fstatus : Option String)
    (uni course_code : String) (year : Int) (term status : String)
    (hC : coursesWF courses) (hE : enrollmentsWF enrollments) :
    coursesWF (create_course courses c).2 ∧
    coursesWF (get_course courses qc).2 ∧
    coursesWF (list_courses courses code dept_id instructor min_credits
      max_credits).2 ∧
    enrollmentsWF (create_enrollment enrollments e).2 ∧
    enrollmentsWF (get_enrollment enrollments uni course_code year term).2 ∧
    enrollmentsWF (list_enrollments enrollments funi fcourse_code fyear fterm
      fstatus).2 ∧
    enrollmentsWF (update_enrollment_status enrollments uni course_code year
      term status).2 := by
  refine ⟨?_, ?_, ?_, ?_, ?_, ?_, ?_⟩
  · by_cases h : containsKey courses c.code
    · simpa [create_course, h] using hC
    · simp only [create_course, h, Bool.false_eq_true, if_false]
      intro kv hm
      rcases mem_dictSet hm with h1 | h1
      · exact hC kv h1
      · rw [h1]
  · have h2 : (get_course courses qc).2 = courses := by
      unfold get_course
      cases h : lookupKey courses qc <;> simp [h]
    rw [h2]
    exact hC
  · simpa [list_courses, stepFilter] using hC
  · by_cases h : containsKey enrollments
      (_enroll_key e.uni e.course_code e.year e.term)
    · simpa [create_enrollment, h] using hE
    · simp only [create_enrollment, h, Bool.false_eq_true, if_false]
      intro kv hm
      rcases mem_dictSet hm with h1 | h1
      · exact hE kv h1
      · rw [h1]
  · have h2 : (get_enrollment enrollments uni course_code year term).2 =
        enrollments := by
      unfold get_enrollment
      cases h : lookupKey enrollments (_enroll_key uni course_code year term) <;>
        simp [h]
    rw [h2]
    exact hE
  · simpa [list_enrollments, stepFilter] using hE
  · cases hq : lookupKey enrollments (_enroll_key uni course_code year term) with
    | none => simpa [update_enrollment_status, hq] using hE
    | some cur =>
      have hkey : _enroll_key uni course_code year term =
          _enroll_key cur.uni cur.course_code cur.year cur.term :=
        hE (_enroll_key uni course_code year term, cur) (mem_of_lookupKey hq)
      by_cases hlen : cur.uni.length < 2
      · simp only [update_enrollment_status, hq, Enrollment.parse, if_pos hlen]
        simpa using hE
      · simp only [update_enrollment_status, hq, Enrollment.parse, if_neg hlen]
        intro kv hm
        rcases mem_dictSet hm with h1 | h1
        · exact hE kv h1
        · rw [h1]
          exact hkey

/-- C10 witness: the invariant theorem applied to a coherent one-course,
one-enrollment pair of stores. -/
theorem C10_key_value_coherence_witness :
    coursesWF (create_course [("cs", (⟨"cs", "T", "I", 3, "D"⟩ : Course))]
      ⟨"ma", "T2", "I2", 4, "D2"⟩).2 ∧
    coursesWF (get_course [("cs", (⟨"cs", "T", "I", 3, "D"⟩ : Course))] "cs").2 ∧
    coursesWF (list_courses [("cs", (⟨"cs", "T", "I", 3, "D"⟩ : Course))]
      none none none none none).2 ∧
    enrollmentsWF (create_enrollment
      [(_enroll_key "ab" "cc" 2025 "FALL",
        (⟨"ab", "cc", 2025, "FALL", "enrolled"⟩ : Enrollment))]
      ⟨"cd", "cc", 2025, "FALL", "enrolled"⟩).2 ∧
    enrollmentsWF (get_enrollment
      [(_enroll_key "ab" "cc" 2025 "FALL",
        (⟨"ab", "cc", 2025, "FALL", "enrolled"⟩ : Enrollment))]
      "ab" "cc" 2025 "FALL").2 ∧
    enrollmentsWF (list_enrollments
      [(_enroll_key "ab" "cc" 2025 "FALL",
        (⟨"ab", "cc", 2025, "FALL", "enrolled"⟩ : Enrollment))]
      none none none none none).2 ∧
    enrollmentsWF (update_enrollment_status
      [(_enroll_key "ab" "cc" 2025 "FALL",
        (⟨"ab", "cc", 2025, "FALL", "enrolled"⟩ : Enrollment))]
      "ab" "cc" 2025 "FALL" "dropped").2 :=
  C10_key_value_coherence [("cs", ⟨"cs", "T", "I", 3, "D"⟩)]
    [(_enroll_key "ab" "cc" 2025 "FALL", ⟨"ab", "cc", 2025, "FALL", "enrolled"⟩)]
    ⟨"ma", "T2", "I2", 4, "D2"⟩ ⟨"cd", "cc", 2025, "FALL", "enrolled"⟩ "cs"
    none none none none none none none none none none
    "ab" "cc" 2025 "FALL" "dropped" (by unfold coursesWF; decide)
    (by unfold enrollmentsWF; decide)

end SimpleMicroservice
